import Mathlib

/-!
Verification of the ScrLst contact-sheet generator (`src/scrlst.py`).

The embedding below translates the core pipeline of the script into Lean:
the metadata probe (`run_ffprobe`), the timestamp sampler and thumbnail
compositor inside `create_thumbnail`, the byte-size formatter
(`format_size`), and the output-path resolver (`resolve_output_path`).
External effects (subprocess output, filesystem existence, extraction
success) are passed in explicitly as environments; machine floats are
modelled as exact rationals, which agrees with the script on every value
the claims touch (sums, products and divisions by powers of two).
-/

namespace ScrLst

/-- Grid width in thumbnails, `THUMBS_PER_ROW = 4` in scrlst.py. -/
def THUMBS_PER_ROW : ℕ := 4

/-- Grid height in thumbnails, `THUMBS_PER_COL = 4` in scrlst.py. -/
def THUMBS_PER_COL : ℕ := 4

/-- Thumbnail width in pixels, `THUMB_WIDTH = 320` in scrlst.py. -/
def THUMB_WIDTH : ℕ := 320

/-- Cell padding in pixels, `PADDING = 10` in scrlst.py. -/
def PADDING : ℕ := 10

/-- Header band height in pixels, `HEADER_HEIGHT = 60` in scrlst.py. -/
def HEADER_HEIGHT : ℕ := 60

/-- The grid slot count `total_shots = THUMBS_PER_ROW * THUMBS_PER_COL` (line 177). -/
def total_shots : ℕ := THUMBS_PER_ROW * THUMBS_PER_COL

/-- Python `str.strip()` on a character list: drop whitespace at both ends. -/
def pyStrip (cs : List Char) : List Char :=
  ((cs.dropWhile Char.isWhitespace).reverse.dropWhile Char.isWhitespace).reverse

/-- Python `str.split(sep)` for a one-character separator, on character
lists: always returns at least one (possibly empty) group. -/
def splitOnChar (sep : Char) : List Char → List (List Char)
  | [] => [[]]
  | c :: cs =>
    let r := splitOnChar sep cs
    if c = sep then [] :: r
    else
      match r with
      | [] => [[c]]
      | g :: gs => (c :: g) :: gs

/-- Decimal digit run to a number: the body of Python `int` after the sign. -/
def pyParseNat (cs : List Char) : Option ℕ :=
  if cs = [] then none
  else if cs.all Char.isDigit then
    some (cs.foldl (fun acc c => 10 * acc + (c.toNat - 48)) 0)
  else none

/-- Python `int(s)` on the clean integer tokens ffprobe emits (lines 118-119):
optional surrounding whitespace, optional sign, decimal digits. -/
def pyParseInt (s : String) : Option ℤ :=
  match pyStrip s.data with
  | '-' :: rest => (pyParseNat rest).map fun n => -(n : ℤ)
  | '+' :: rest => (pyParseNat rest).map fun n => (n : ℤ)
  | cs => (pyParseNat cs).map fun n => (n : ℤ)

/-- Python `float(s)` on the plain decimal forms ffprobe emits (optional sign,
digits, optional fractional part); exotic forms (exponents, `inf`) never occur
in probe output and are rejected here (lines 123, 137). -/
def pyParseFloat (s : String) : Option ℚ :=
  let body : List Char → Option ℚ := fun t =>
    match splitOnChar '.' t with
    | [ip] => (pyParseNat ip).map fun a => (a : ℚ)
    | [ip, fp] =>
      match pyParseNat ip, pyParseNat fp with
      | some a, some b => some ((a : ℚ) + (b : ℚ) / (10 : ℚ) ^ fp.length)
      | _, _ => none
    | _ => none
  match pyStrip s.data with
  | '-' :: rest => (body rest).map fun q => -q
  | '+' :: rest => body rest
  | cs => body cs

/-- Python truthiness of an optional float: `not dur` is true when `dur` is
`None` or `0.0` (lines 128 and 173 test `if not dur` / `if not duration`). -/
def pyFalsyQ : Option ℚ → Bool
  | none => true
  | some q => decide (q = 0)

/-- Python `str` of an optional int: `None` renders as the literal string
`"None"` inside the f-string of line 217. -/
def pyStrOpt : Option ℤ → String
  | none => "None"
  | some n => toString n

/-- Python `int(x)` on a float: truncation toward zero (lines 186 and 199). -/
def pyInt (q : ℚ) : ℤ := if 0 ≤ q then Int.floor q else Int.ceil q

/-- Two-digit rendering of a field of `str(timedelta)` (minutes/seconds). -/
def two2 (n : ℤ) : String := if n < 10 then "0" ++ toString n else toString n

/-- Python `str(timedelta(seconds=secs))` — `H:MM:SS`, preceded by a day count
when the magnitude reaches a day; days are floor-divided as in Python. -/
def formatTimedelta (secs : ℤ) : String :=
  let days := Int.fdiv secs 86400
  let r := Int.emod secs 86400
  let core := toString (r / 3600) ++ ":" ++ two2 (r % 3600 / 60) ++ ":" ++ two2 (r % 60)
  if days = 0 then core
  else toString days ++ (if days.natAbs = 1 then " day, " else " days, ") ++ core

/-- Rounding of `q` to the nearest integer, ties to even — the rounding Python
`f"{x:.1f}"` applies to the (here exact) value `x * 10`. -/
def roundHalfEven (q : ℚ) : ℤ :=
  let f := Int.floor q
  let r := q - (f : ℚ)
  if r < 1 / 2 then f
  else if 1 / 2 < r then f + 1
  else if f % 2 = 0 then f else f + 1

/-- Python `f"{x:.1f}"` on an exactly-representable value. -/
def fmt1 (q : ℚ) : String :=
  let n := roundHalfEven (q * 10)
  (if n < 0 then "-" else "") ++ toString (n.natAbs / 10) ++ "." ++ toString (n.natAbs % 10)

/-- The unit loop of `format_size` (lines 144-147): try each unit in order,
dividing by 1024 while the value is at least 1024. -/
def formatSizeGo : ℚ → List String → String
  | b, [] => fmt1 b ++ " PB"
  | b, unit :: units => if b < 1024 then fmt1 b ++ " " ++ unit else formatSizeGo (b / 1024) units

/-- `format_size` of scrlst.py lines 143-148. -/
def format_size (bytes_size : ℚ) : String :=
  formatSizeGo bytes_size ["B", "KB", "MB", "GB", "TB"]

/-- Environment of `run_ffprobe`: the decoded stdout of the two possible
ffprobe invocations. `first = none` models `CalledProcessError` of the
stream-level call (line 111); `second = none` models any failure of the
container-level call (line 138). -/
structure ProbeEnv where
  first : Option String
  second : Option String
  deriving DecidableEq

/-- Parsing of the stream-level probe output, lines 115-125: strip, split on
newlines; with at least three lines, width/height parse as ints inside one
`try` (so a width failure also leaves height empty), duration as a float in
its own `try`. -/
def parseStreamOutput (raw : String) : Option ℤ × Option ℤ × Option ℚ :=
  let out := (splitOnChar '\n' (pyStrip raw.data)).map String.mk
  if 3 ≤ out.length then
    let width := pyParseInt (out.getD 0 "")
    let height := match width with
      | none => none
      | some _ => pyParseInt (out.getD 1 "")
    let dur := pyParseFloat (out.getD 2 "")
    (width, height, dur)
  else (none, none, none)

/-- Parsing of the container-level fallback probe output (lines 135-139):
strip and parse as a float; any subprocess or parse failure yields `none`. -/
def parseFormatOutput : Option String → Option ℚ
  | none => none
  | some raw2 => pyParseFloat raw2

/-- `run_ffprobe` of scrlst.py lines 100-141. The Bool records whether the
second (container-level) probe was issued. On a failed first invocation the
function returns early with all fields empty and no second probe. -/
def run_ffprobe (env : ProbeEnv) : (Option ℤ × Option ℤ × Option ℚ) × Bool :=
  match env.first with
  | none => ((none, none, none), false)
  | some raw =>
    let parsed := parseStreamOutput raw
    if pyFalsyQ parsed.2.2 then
      ((parsed.1, parsed.2.1, parseFormatOutput env.second), true)
    else (parsed, false)

/-- A source frame as ffmpeg wrote it to the scratch file: its pixel size. -/
structure SrcImage where
  w : ℕ
  h : ℕ
  deriving DecidableEq

/-- A processed thumbnail: resized height and the burned-in time label. -/
structure Thumb where
  height : ℕ
  label : String
  deriving DecidableEq

/-- Lines 197-201: convert, resize to width `THUMB_WIDTH` at height
`int(THUMB_WIDTH * img.height / img.width)`, draw the `str(timedelta)` label. -/
def processFrame (ts : ℚ) (img : SrcImage) : Thumb :=
  { height := THUMB_WIDTH * img.h / img.w
    label := formatTimedelta (pyInt ts) }

/-- The timestamp list of lines 178-179:
`step = duration / (total_shots + 1); [step * (i+1) for i in range(total_shots)]`. -/
def timestamps (duration : ℚ) (n : ℕ) : List ℚ :=
  (List.range n).map fun i : ℕ => duration / ((n : ℚ) + 1) * ((i : ℚ) + 1)

/-- The extraction loop of lines 184-202: for each (slot, timestamp) pair, the
environment says whether ffmpeg produced a readable frame there; successes are
appended in slot order, failures are skipped. -/
def extractImages (slots : ℕ → Option SrcImage) (duration : ℚ) : List Thumb :=
  (timestamps duration total_shots).enum.filterMap fun p =>
    (slots p.1).map fun img => processFrame p.2 img

/-- The top-left corner at which the paste loop (lines 225-229) places the
thumbnail enumerated at `idx`, given the shared thumbnail height. -/
def cellPos (thumb_h idx : ℕ) : ℕ × ℕ :=
  (PADDING + idx % THUMBS_PER_ROW * (THUMB_WIDTH + PADDING),
   HEADER_HEIGHT + PADDING + idx / THUMBS_PER_ROW * (thumb_h + PADDING))

/-- The composed contact sheet: canvas size, header text, and the paste
positions in paste order. -/
structure Sheet where
  width : ℕ
  height : ℕ
  header : String
  pastes : List (ℕ × ℕ)
  deriving DecidableEq

/-- Outcome of `create_thumbnail`: the two logged failure returns (lines
173-175 and 204-206) or a saved sheet (line 231). -/
inductive CTOutcome where
  | unprocessable
  | noFrames
  | savedSheet (s : Sheet)
  deriving DecidableEq

/-- Result of one `create_thumbnail` run: the outcome together with whether
the `_thumbs_temp` directory exists when the function returns. -/
structure CTResult where
  outcome : CTOutcome
  tempDirExists : Bool
  deriving DecidableEq

/-- Environment of one `create_thumbnail` run: the probe's outputs, the
per-slot extraction outcomes, and the file's display name and byte size. -/
structure CTEnv where
  probe : ProbeEnv
  slots : ℕ → Option SrcImage
  name : String
  fileSize : ℚ

/-- `create_thumbnail` of scrlst.py lines 170-233, with the filesystem effect
on `_thumbs_temp` made explicit: `tempDir0` is whether the directory exists on
entry; `mkdir(exist_ok=True)` (line 182) runs only after the duration check,
and `shutil.rmtree` (line 233) runs only after a successful `sheet.save`. -/
def create_thumbnail (env : CTEnv) (tempDir0 : Bool) : CTResult :=
  let pr := run_ffprobe env.probe
  if pyFalsyQ pr.1.2.2 then ⟨CTOutcome.unprocessable, tempDir0⟩
  else
    let d := pr.1.2.2.getD 0
    match extractImages env.slots d with
    | [] => ⟨CTOutcome.noFrames, true⟩
    | img0 :: rest =>
      ⟨CTOutcome.savedSheet
        { width := THUMBS_PER_ROW * THUMB_WIDTH + (THUMBS_PER_ROW + 1) * PADDING
          height := HEADER_HEIGHT + THUMBS_PER_COL * img0.height + (THUMBS_PER_COL + 1) * PADDING
          header := env.name ++ " | " ++ pyStrOpt pr.1.1 ++ "x" ++ pyStrOpt pr.1.2.1 ++ " | "
              ++ format_size env.fileSize ++ " | " ++ formatTimedelta (pyInt d)
          pastes := (img0 :: rest).enum.map fun p => cellPos img0.height p.1 },
        false⟩

/-- The paste positions the specification describes for the compositor: each
successful frame at the cell of its ORIGINAL slot index. This definition
follows the spec's words (not the code) and exists to be compared with the
positions `create_thumbnail` actually produces. -/
def specSlotPastes (slots : ℕ → Option SrcImage) (thumb_h : ℕ) : List (ℕ × ℕ) :=
  ((List.range total_shots).filterMap fun i => (slots i).map fun _ => i).map
    (cellPos thumb_h)

/-- Projection: the paste positions of a saved sheet, if any. -/
def outcomePastes : CTOutcome → Option (List (ℕ × ℕ))
  | CTOutcome.savedSheet s => some s.pastes
  | _ => none

/-- Projection: the canvas size of a saved sheet, if any. -/
def outcomeGeom : CTOutcome → Option (ℕ × ℕ)
  | CTOutcome.savedSheet s => some (s.width, s.height)
  | _ => none

/-- Projection: the header text of a saved sheet, if any. -/
def outcomeHeader : CTOutcome → Option String
  | CTOutcome.savedSheet s => some s.header
  | _ => none

/-- Whether an outcome wrote an output file (only `sheet.save` does). -/
def writesOutput : CTOutcome → Bool
  | CTOutcome.savedSheet _ => true
  | _ => false

/-- An output path as the resolver manipulates it: `with_stem` keeps the
directory and suffix, so only the stem and suffix matter. -/
structure FPath where
  stem : String
  suffix : String
  deriving DecidableEq

/-- Result of `resolve_output_path`: a write target, or the skip signal
(Python `None`, line 160). -/
inductive ResolveResult where
  | path (p : FPath)
  | skip
  deriving DecidableEq

/-- The indexed candidate `base_path.with_stem(f"{base_path.stem}_{i}")`. -/
def idxPath (base : FPath) (i : ℕ) : FPath :=
  { base with stem := base.stem ++ "_" ++ toString i }

/-- The `while candidate.exists()` loop of lines 163-167, made total with an
explicit probe budget: `none` means the loop was still running after `fuel`
iterations. The source loop has no such bound. -/
def appendLoop (ex : FPath → Bool) (base : FPath) : ℕ → FPath → ℕ → Option FPath
  | 0, _, _ => none
  | fuel + 1, cand, idx =>
    if ex cand then
      appendLoop ex base fuel { cand with stem := base.stem ++ "_" ++ toString idx } (idx + 1)
    else some cand

/-- `resolve_output_path` of lines 150-168. `overwrite` is the module constant
`OVERWRITE` (1 = replace, -1 = skip if exists, anything else = append index);
`ex` is `Path.exists` on the current filesystem. -/
def resolve_output_path (overwrite : ℤ) (ex : FPath → Bool) (base : FPath) (fuel : ℕ) :
    Option ResolveResult :=
  if overwrite = 1 then some (ResolveResult.path base)
  else if overwrite = -1 then
    if ex base then some ResolveResult.skip else some (ResolveResult.path base)
  else (appendLoop ex base fuel base 1).map ResolveResult.path

/-- One discovered video of the batch loop in `main` (lines 271-278): its
desired output path and the environment of its `create_thumbnail` run. -/
structure VideoJob where
  base : FPath
  env : CTEnv
  tempDir0 : Bool

/-- What the batch loop did for one video: skipped it by the overwrite rule
(line 275-276, `create_thumbnail` never invoked), ran out of probe budget in
the resolver, or ran `create_thumbnail` on the resolved path. -/
inductive JobResult where
  | skippedByPolicy
  | fuelOut
  | ran (out : FPath) (r : CTResult)

/-- The per-video body of the batch loop in `main`, lines 273-278. -/
def processJob (overwrite : ℤ) (ex : FPath → Bool) (fuel : ℕ) (j : VideoJob) : JobResult :=
  match resolve_output_path overwrite ex j.base fuel with
  | none => JobResult.fuelOut
  | some ResolveResult.skip => JobResult.skippedByPolicy
  | some (ResolveResult.path p) => JobResult.ran p (create_thumbnail j.env j.tempDir0)

/-- The batch loop of `main` (lines 271-278): every discovered video is
processed in order, independently of earlier outcomes. -/
def processBatch (overwrite : ℤ) (ex : FPath → Bool) (fuel : ℕ) (jobs : List VideoJob) :
    List JobResult :=
  jobs.map (processJob overwrite ex fuel)



attribute [local semireducible] Rat.mul Rat.add Rat.sub Rat.inv Rat.ofScientific

/-- C1: for every `durationSeconds > 0` and grid size `N`, the timestamp list
of lines 177-179 has exactly `N` entries, the `i`-th (1-based) equal to
`i * duration / (N + 1)`, strictly increasing, and all strictly between `0`
and `durationSeconds`. -/
theorem c1_timestamps (d : ℚ) (n : ℕ) (hd : 0 < d) :
    (timestamps d n).length = n ∧
    (∀ i : ℕ, i < n → (timestamps d n)[i]? = some (((i : ℚ) + 1) * d / ((n : ℚ) + 1))) ∧
    (timestamps d n).Pairwise (· < ·) ∧
    (∀ t ∈ timestamps d n, 0 < t ∧ t < d) := by
  have hn1 : (0 : ℚ) < (n : ℚ) + 1 := by positivity
  have hstep : (0 : ℚ) < d / ((n : ℚ) + 1) := div_pos hd hn1
  refine ⟨?_, ?_, ?_, ?_⟩
  · rw [timestamps, List.length_map, List.length_range]
  · intro i hi
    rw [timestamps, List.getElem?_map, List.getElem?_range hi, Option.map_some']
    congr 1
    ring
  · rw [timestamps, List.pairwise_map]
    refine (List.pairwise_lt_range n).imp ?_
    intro a b hab
    have hc : (a : ℚ) + 1 < (b : ℚ) + 1 := by exact_mod_cast Nat.succ_lt_succ hab
    exact mul_lt_mul_of_pos_left hc hstep
  · intro t ht
    rw [timestamps, List.mem_map] at ht
    obtain ⟨i, hi, rfl⟩ := ht
    rw [List.mem_range] at hi
    refine ⟨by positivity, ?_⟩
    have hlt : ((i : ℚ) + 1) / ((n : ℚ) + 1) < 1 := by
      rw [div_lt_one hn1]
      exact_mod_cast Nat.succ_lt_succ hi
    calc d / ((n : ℚ) + 1) * ((i : ℚ) + 1) = d * (((i : ℚ) + 1) / ((n : ℚ) + 1)) := by ring
      _ < d * 1 := mul_lt_mul_of_pos_left hlt hd
      _ = d := mul_one d

/-- Witness for C1 at `duration = 10`, `N = 16` (the script's 4×4 grid). -/
theorem c1_timestamps_witness :
    (timestamps 10 16).length = 16 ∧
    (∀ i : ℕ, i < 16 → (timestamps 10 16)[i]? = some (((i : ℚ) + 1) * 10 / (((16 : ℕ) : ℚ) + 1))) ∧
    (timestamps 10 16).Pairwise (· < ·) ∧
    (∀ t ∈ timestamps 10 16, 0 < t ∧ t < 10) :=
  c1_timestamps 10 16 (by norm_num)

/-- Unit-list step of `formatSizeGo`: below the 1024 threshold the current
unit is used. -/
theorem formatSizeGo_cons_lt {b : ℚ} {u : String} {us : List String} (h : b < 1024) :
    formatSizeGo b (u :: us) = fmt1 b ++ " " ++ u := by
  rw [formatSizeGo, if_pos h]

/-- Unit-list step of `formatSizeGo`: at or above 1024 the value is divided
and the next unit is tried. -/
theorem formatSizeGo_cons_ge {b : ℚ} {u : String} {us : List String} (h : 1024 ≤ b) :
    formatSizeGo b (u :: us) = formatSizeGo (b / 1024) us := by
  rw [formatSizeGo, if_neg (not_lt.2 h)]

/-- C6: `format_size` renders the spec's three sample values exactly, and in
general uses unit `B`/`KB`/`MB`/`GB`/`TB`/`PB` according to 1024-power
thresholds, with the value divided by the unit's power of 1024 and printed
with one decimal place. -/
theorem c6_format_size :
    format_size 0 = "0.0 B" ∧ format_size 1536 = "1.5 KB" ∧
    format_size (1024 ^ 4) = "1.0 TB" ∧
    (∀ b : ℚ, b < 1024 → format_size b = fmt1 b ++ " B") ∧
    (∀ b : ℚ, 1024 ≤ b → b < 1024 ^ 2 → format_size b = fmt1 (b / 1024) ++ " KB") ∧
    (∀ b : ℚ, 1024 ^ 2 ≤ b → b < 1024 ^ 3 → format_size b = fmt1 (b / 1024 ^ 2) ++ " MB") ∧
    (∀ b : ℚ, 1024 ^ 3 ≤ b → b < 1024 ^ 4 → format_size b = fmt1 (b / 1024 ^ 3) ++ " GB") ∧
    (∀ b : ℚ, 1024 ^ 4 ≤ b → b < 1024 ^ 5 → format_size b = fmt1 (b / 1024 ^ 4) ++ " TB") ∧
    (∀ b : ℚ, 1024 ^ 5 ≤ b → format_size b = fmt1 (b / 1024 ^ 5) ++ " PB") := by
  have p1 : (0 : ℚ) < 1024 := by norm_num
  refine ⟨by decide, by decide, by decide, ?_, ?_, ?_, ?_, ?_, ?_⟩
  · intro b h1
    rw [format_size, formatSizeGo_cons_lt h1, String.append_assoc]
    congr 1
  · intro b h1 h2
    norm_num at h2
    have e2 : b / 1024 < 1024 := by rw [div_lt_iff₀ p1]; linarith
    rw [format_size, formatSizeGo_cons_ge h1, formatSizeGo_cons_lt e2, String.append_assoc]
    congr 1
  · intro b h1 h2
    norm_num at h1 h2
    have e1 : (1024 : ℚ) ≤ b := by linarith
    have e2 : (1024 : ℚ) ≤ b / 1024 := by rw [le_div_iff₀ p1]; linarith
    have e3 : b / 1024 / 1024 < 1024 := by
      rw [div_div, div_lt_iff₀ (by norm_num : (0 : ℚ) < 1024 * 1024)]; linarith
    have e4 : b / 1024 / 1024 = b / 1024 ^ 2 := by rw [div_div]; norm_num
    rw [format_size, formatSizeGo_cons_ge e1, formatSizeGo_cons_ge e2, formatSizeGo_cons_lt e3,
      e4, String.append_assoc]
    congr 1
  · intro b h1 h2
    norm_num at h1 h2
    have e1 : (1024 : ℚ) ≤ b := by linarith
    have e2 : (1024 : ℚ) ≤ b / 1024 := by rw [le_div_iff₀ p1]; linarith
    have e3 : (1024 : ℚ) ≤ b / 1024 / 1024 := by
      rw [div_div, le_div_iff₀ (by norm_num : (0 : ℚ) < 1024 * 1024)]; linarith
    have e4 : b / 1024 / 1024 / 1024 < 1024 := by
      rw [div_div, div_div, div_lt_iff₀ (by positivity)]
      norm_num
      linarith
    have e5 : b / 1024 / 1024 / 1024 = b / 1024 ^ 3 := by rw [div_div, div_div]; norm_num
    rw [format_size, formatSizeGo_cons_ge e1, formatSizeGo_cons_ge e2, formatSizeGo_cons_ge e3,
      formatSizeGo_cons_lt e4, e5, String.append_assoc]
    congr 1
  · intro b h1 h2
    norm_num at h1 h2
    have e1 : (1024 : ℚ) ≤ b := by linarith
    have e2 : (1024 : ℚ) ≤ b / 1024 := by rw [le_div_iff₀ p1]; linarith
    have e3 : (1024 : ℚ) ≤ b / 1024 / 1024 := by
      rw [div_div, le_div_iff₀ (by norm_num : (0 : ℚ) < 1024 * 1024)]; linarith
    have e4 : (1024 : ℚ) ≤ b / 1024 / 1024 / 1024 := by
      rw [div_div, div_div, le_div_iff₀ (by positivity)]
      norm_num
      linarith
    have e5 : b / 1024 / 1024 / 1024 / 1024 < 1024 := by
      rw [div_div, div_div, div_div, div_lt_iff₀ (by positivity)]
      norm_num
      linarith
    have e6 : b / 1024 / 1024 / 1024 / 1024 = b / 1024 ^ 4 := by
      rw [div_div, div_div, div_div]; norm_num
    rw [format_size, formatSizeGo_cons_ge e1, formatSizeGo_cons_ge e2, formatSizeGo_cons_ge e3,
      formatSizeGo_cons_ge e4, formatSizeGo_cons_lt e5, e6, String.append_assoc]
    congr 1
  · intro b h1
    norm_num at h1
    have e1 : (1024 : ℚ) ≤ b := by linarith
    have e2 : (1024 : ℚ) ≤ b / 1024 := by rw [le_div_iff₀ p1]; linarith
    have e3 : (1024 : ℚ) ≤ b / 1024 / 1024 := by
      rw [div_div, le_div_iff₀ (by norm_num : (0 : ℚ) < 1024 * 1024)]; linarith
    have e4 : (1024 : ℚ) ≤ b / 1024 / 1024 / 1024 := by
      rw [div_div, div_div, le_div_iff₀ (by positivity)]
      norm_num
      linarith
    have e5 : (1024 : ℚ) ≤ b / 1024 / 1024 / 1024 / 1024 := by
      rw [div_div, div_div, div_div, le_div_iff₀ (by positivity)]
      norm_num
      linarith
    have e6 : b / 1024 / 1024 / 1024 / 1024 / 1024 = b / 1024 ^ 5 := by
      rw [div_div, div_div, div_div, div_div]; norm_num
    rw [format_size, formatSizeGo_cons_ge e1, formatSizeGo_cons_ge e2, formatSizeGo_cons_ge e3,
      formatSizeGo_cons_ge e4, formatSizeGo_cons_ge e5, formatSizeGo, e6]

/-- Witness for C6's threshold clause at 2048 bytes. -/
theorem c6_format_size_witness :
    (1024 : ℚ) ≤ 2048 ∧ (2048 : ℚ) < 1024 ^ 2 ∧
    format_size 2048 = fmt1 (2048 / 1024) ++ " KB" :=
  ⟨by norm_num, by norm_num, c6_format_size.2.2.2.2.1 2048 (by norm_num) (by norm_num)⟩

/-- The append-index loop, entered at candidate `base_j` with counter `j + 1`:
if `base_j .. base_(j+m-1)` all exist and `base_(j+m)` does not, it stops at
`base_(j+m)`, using `m + 1` probes. -/
theorem appendLoop_reaches (ex : FPath → Bool) (base : FPath) :
    ∀ (m j fuel : ℕ), m + 1 ≤ fuel →
      (∀ i, j ≤ i → i < j + m → ex (idxPath base i) = true) →
      ex (idxPath base (j + m)) = false →
      appendLoop ex base fuel (idxPath base j) (j + 1) = some (idxPath base (j + m)) := by
  intro m
  induction m with
  | zero =>
    intro j fuel hf _ hfree
    obtain ⟨f, rfl⟩ : ∃ f, fuel = f + 1 := ⟨fuel - 1, by omega⟩
    rw [Nat.add_zero] at hfree
    simp [appendLoop, hfree]
  | succ m ih =>
    intro j fuel hf hmid hfree
    obtain ⟨f, rfl⟩ : ∃ f, fuel = f + 1 := ⟨fuel - 1, by omega⟩
    have hj : ex (idxPath base j) = true := hmid j le_rfl (by omega)
    rw [appendLoop, if_pos hj]
    have hstep : ({ idxPath base j with stem := base.stem ++ "_" ++ toString (j + 1) } : FPath) =
        idxPath base (j + 1) := rfl
    rw [hstep]
    have h1 : j + (m + 1) = (j + 1) + m := by omega
    rw [h1] at hfree ⊢
    exact ih (j + 1) f (by omega) (fun i hi1 hi2 => hmid i (by omega) (by omega)) hfree

/-- C4: under `OVERWRITE = 0` (append index if exists), a non-existing base
path is returned unchanged, and when `base, base_1, …, base_k` exist but
`base_(k+1)` does not, the resolver returns `base_(k+1)` (given enough probe
budget: the loop needs `k + 2` existence checks). -/
theorem c4_resolve_append (ex : FPath → Bool) (base : FPath) (k fuel : ℕ) :
    (ex base = false → 1 ≤ fuel →
      resolve_output_path 0 ex base fuel = some (ResolveResult.path base)) ∧
    (ex base = true →
      (∀ i, 1 ≤ i → i ≤ k → ex (idxPath base i) = true) →
      ex (idxPath base (k + 1)) = false → k + 2 ≤ fuel →
      resolve_output_path 0 ex base fuel = some (ResolveResult.path (idxPath base (k + 1)))) := by
  constructor
  · intro hb hf
    obtain ⟨f, rfl⟩ : ∃ f, fuel = f + 1 := ⟨fuel - 1, by omega⟩
    simp [resolve_output_path, appendLoop, hb]
  · intro hb hmid hfree hf
    obtain ⟨f, rfl⟩ : ∃ f, fuel = f + 1 := ⟨fuel - 1, by omega⟩
    have hfree' : ex (idxPath base (1 + k)) = false := by rwa [Nat.add_comm]
    have key := appendLoop_reaches ex base k 1 f (by omega)
      (fun i hi1 hi2 => hmid i hi1 (by omega)) hfree'
    rw [Nat.add_comm 1 k] at key
    simp only [resolve_output_path]
    rw [appendLoop]
    have hstep : ({ base with stem := base.stem ++ "_" ++ toString 1 } : FPath) =
        idxPath base 1 := rfl
    rw [hstep, key]
    simp [hb]

/-- Witness for C4: the filesystem where exactly `video.jpg` and
`video_1.jpg` exist; the resolver settles on `video_2.jpg`. -/
theorem c4_resolve_append_witness :
    resolve_output_path 0 (fun p => p.stem == "video" || p.stem == "video_1")
      ⟨"video", ".jpg"⟩ 10 =
      some (ResolveResult.path (idxPath ⟨"video", ".jpg"⟩ 2)) :=
  (c4_resolve_append (fun p => p.stem == "video" || p.stem == "video_1")
      ⟨"video", ".jpg"⟩ 1 10).2
    (by decide)
    (fun i hi1 hi2 => by
      have hi : i = 1 := by omega
      subst hi
      decide)
    (by decide)
    (by omega)

/-- On a filesystem where every path exists, the append-index loop never
returns, whatever the probe budget and starting state. -/
theorem appendLoop_allExists (base : FPath) :
    ∀ (fuel : ℕ) (cand : FPath) (idx : ℕ),
      appendLoop (fun _ => true) base fuel cand idx = none := by
  intro fuel
  induction fuel with
  | zero => intro cand idx; rw [appendLoop]
  | succ f ih =>
    intro cand idx
    rw [appendLoop, if_pos rfl]
    exact ih _ _

/-- C9 (amended): the source's `while candidate.exists()` loop has no cap at
all: on a filesystem where every probed path exists it does not terminate
within any finite probe budget; it stops only at the first candidate that
does not exist (as in C4). -/
theorem c9_unbounded_probing (base : FPath) (fuel : ℕ) :
    resolve_output_path 0 (fun _ => true) base fuel = none := by
  simp [resolve_output_path, appendLoop_allExists base fuel base 1]

/-- Counterexample to C9 as stated: with every path existing, one million
probes are not enough for the resolver to return — there is no documented
(nor any) maximum cap in the code. -/
theorem c9_no_cap_cex :
    resolve_output_path 0 (fun _ => true) ⟨"video", ".jpg"⟩ 1000000 = none := by
  simp [resolve_output_path,
    appendLoop_allExists ⟨"video", ".jpg"⟩ 1000000 ⟨"video", ".jpg"⟩ 1]

/-- C5: under `OVERWRITE = -1` (skip if exists), an existing base path makes
the resolver signal "skip" and the batch body abandon the video without
running `create_thumbnail`; a non-existing base path is returned unchanged
and processing proceeds on it. -/
theorem c5_skip_if_exists (ex : FPath → Bool) (base : FPath) (fuel : ℕ)
    (env : CTEnv) (t0 : Bool) :
    (ex base = true →
      resolve_output_path (-1) ex base fuel = some ResolveResult.skip ∧
      processJob (-1) ex fuel ⟨base, env, t0⟩ = JobResult.skippedByPolicy) ∧
    (ex base = false →
      resolve_output_path (-1) ex base fuel = some (ResolveResult.path base) ∧
      processJob (-1) ex fuel ⟨base, env, t0⟩ =
        JobResult.ran base (create_thumbnail env t0)) := by
  constructor
  · intro hb
    have hr : resolve_output_path (-1) ex base fuel = some ResolveResult.skip := by
      simp [resolve_output_path, hb]
    exact ⟨hr, by simp [processJob, hr]⟩
  · intro hb
    have hr : resolve_output_path (-1) ex base fuel = some (ResolveResult.path base) := by
      simp [resolve_output_path, hb]
    exact ⟨hr, by simp [processJob, hr]⟩

/-- Witness for C5 with `video.jpg` existing: skip, and the job body never
reaches extraction. -/
theorem c5_skip_witness :
    resolve_output_path (-1) (fun p => p.stem == "video") ⟨"video", ".jpg"⟩ 5 =
      some ResolveResult.skip ∧
    processJob (-1) (fun p => p.stem == "video") 5
      ⟨⟨"video", ".jpg"⟩, ⟨⟨some "", none⟩, fun _ => none, "v", 0⟩, false⟩ =
      JobResult.skippedByPolicy :=
  (c5_skip_if_exists (fun p => p.stem == "video") ⟨"video", ".jpg"⟩ 5
    ⟨⟨some "", none⟩, fun _ => none, "v", 0⟩ false).1 (by decide)

/-- Reduction of `create_thumbnail` on the success path: a usable duration
and a nonempty extraction produce the saved sheet of lines 208-231. -/
theorem create_thumbnail_saved (env : CTEnv) (t0 : Bool) (w h : Option ℤ) (d : ℚ) (b : Bool)
    (img0 : Thumb) (rest : List Thumb)
    (hp : run_ffprobe env.probe = ((w, h, some d), b)) (hd : ¬ d = 0)
    (himg : extractImages env.slots d = img0 :: rest) :
    create_thumbnail env t0 =
      ⟨CTOutcome.savedSheet
        { width := THUMBS_PER_ROW * THUMB_WIDTH + (THUMBS_PER_ROW + 1) * PADDING
          height := HEADER_HEIGHT + THUMBS_PER_COL * img0.height + (THUMBS_PER_COL + 1) * PADDING
          header := env.name ++ " | " ++ pyStrOpt w ++ "x" ++ pyStrOpt h ++ " | "
              ++ format_size env.fileSize ++ " | " ++ formatTimedelta (pyInt d)
          pastes := (img0 :: rest).enum.map fun p => cellPos img0.height p.1 },
        false⟩ := by
  simp [create_thumbnail, hp, pyFalsyQ, hd, himg]

/-- Counterexample to C2 as stated: with only the frame of slot 1 surviving
(slot 0 failed), the code pastes it at `(10, 70)` — the cell of slot 0 —
while placement by original slot index would put it at `(340, 70)`: surviving
frames are re-flowed into earlier cells. -/
theorem c2_reflow_cex :
    outcomePastes (create_thumbnail ⟨⟨some "640\n480\n30", none⟩,
        (fun i => if i == 1 then some ⟨320, 240⟩ else none), "v.mp4", 1000⟩ false).outcome =
      some [(10, 70)] ∧
    specSlotPastes (fun i => if i == 1 then some ⟨320, 240⟩ else none) 240 = [(340, 70)] ∧
    ((10, 70) : ℕ × ℕ) ≠ (340, 70) := by
  decide

/-- C2 (amended): the canvas geometry is always computed from the configured
`rows × columns` grid constants, but the surviving frames are pasted at
consecutive cells `0 .. m-1` in survival order — slot indices of failed
extractions are not preserved, so later frames re-flow into earlier cells. -/
theorem c2_paste_positions_amended (env : CTEnv) (t0 : Bool) (w h : Option ℤ) (d : ℚ)
    (b : Bool) (img0 : Thumb) (rest : List Thumb)
    (hp : run_ffprobe env.probe = ((w, h, some d), b)) (hd : ¬ d = 0)
    (himg : extractImages env.slots d = img0 :: rest) :
    outcomeGeom (create_thumbnail env t0).outcome =
      some (THUMBS_PER_ROW * THUMB_WIDTH + (THUMBS_PER_ROW + 1) * PADDING,
        HEADER_HEIGHT + THUMBS_PER_COL * img0.height + (THUMBS_PER_COL + 1) * PADDING) ∧
    outcomePastes (create_thumbnail env t0).outcome =
      some ((List.range (img0 :: rest).length).map (cellPos img0.height)) := by
  rw [create_thumbnail_saved env t0 w h d b img0 rest hp hd himg]
  refine ⟨rfl, ?_⟩
  simp only [outcomePastes, Option.some_inj]
  rw [← List.enum_map_fst, List.map_map]
  rfl

/-- Witness for the amended C2 at the slot-1-only environment. -/
theorem c2_paste_witness :
    outcomeGeom (create_thumbnail ⟨⟨some "640\n480\n30", none⟩,
        (fun i => if i == 1 then some ⟨320, 240⟩ else none), "v.mp4", 1000⟩ false).outcome =
      some (THUMBS_PER_ROW * THUMB_WIDTH + (THUMBS_PER_ROW + 1) * PADDING,
        HEADER_HEIGHT + THUMBS_PER_COL * 240 + (THUMBS_PER_COL + 1) * PADDING) ∧
    outcomePastes (create_thumbnail ⟨⟨some "640\n480\n30", none⟩,
        (fun i => if i == 1 then some ⟨320, 240⟩ else none), "v.mp4", 1000⟩ false).outcome =
      some ((List.range 1).map (cellPos 240)) :=
  c2_paste_positions_amended
    ⟨⟨some "640\n480\n30", none⟩, (fun i => if i == 1 then some ⟨320, 240⟩ else none),
      "v.mp4", 1000⟩
    false (some 640) (some 480) 30 false ⟨240, "0:00:03"⟩ []
    (by decide) (by norm_num) (by decide)

/-- Counterexample to C3 as stated: a video whose sixteen extractions all
fail takes the zero-frames failure path, and `create_thumbnail` returns with
the `_thumbs_temp` directory still existing — cleanup does not happen on this
failure path. -/
theorem c3_tempdir_cex :
    (create_thumbnail ⟨⟨some "640\n480\n30", none⟩, (fun _ => none), "v.mp4", 1000⟩
        false).outcome = CTOutcome.noFrames ∧
    (create_thumbnail ⟨⟨some "640\n480\n30", none⟩, (fun _ => none), "v.mp4", 1000⟩
        false).tempDirExists = true := by
  decide

/-- C3 (amended): the temporary directory is removed only on the success path,
after the sheet is saved; on the zero-frames failure path it is created and
left in place; on the unobtainable-duration path it is never created (the
filesystem is left as found). -/
theorem c3_tempdir_amended :
    (∀ (env : CTEnv) (t0 : Bool),
      pyFalsyQ (run_ffprobe env.probe).1.2.2 = true →
      create_thumbnail env t0 = ⟨CTOutcome.unprocessable, t0⟩) ∧
    (∀ (env : CTEnv) (t0 : Bool) (w h : Option ℤ) (d : ℚ) (b : Bool),
      run_ffprobe env.probe = ((w, h, some d), b) → ¬ d = 0 →
      extractImages env.slots d = [] →
      create_thumbnail env t0 = ⟨CTOutcome.noFrames, true⟩) ∧
    (∀ (env : CTEnv) (t0 : Bool) (w h : Option ℤ) (d : ℚ) (b : Bool)
      (img0 : Thumb) (rest : List Thumb),
      run_ffprobe env.probe = ((w, h, some d), b) → ¬ d = 0 →
      extractImages env.slots d = img0 :: rest →
      (create_thumbnail env t0).tempDirExists = false) := by
  refine ⟨?_, ?_, ?_⟩
  · intro env t0 hfalsy
    simp [create_thumbnail, hfalsy]
  · intro env t0 w h d b hp hd hempty
    simp [create_thumbnail, hp, pyFalsyQ, hd, hempty]
  · intro env t0 w h d b img0 rest hp hd himg
    rw [create_thumbnail_saved env t0 w h d b img0 rest hp hd himg]

/-- Witness for the amended C3: on the success path the temporary directory
is gone when `create_thumbnail` returns. -/
theorem c3_tempdir_witness :
    (create_thumbnail ⟨⟨some "640\n480\n30", none⟩,
        (fun i => if i == 1 then some ⟨320, 240⟩ else none), "v.mp4", 1000⟩
        false).tempDirExists = false :=
  c3_tempdir_amended.2.2
    ⟨⟨some "640\n480\n30", none⟩, (fun i => if i == 1 then some ⟨320, 240⟩ else none),
      "v.mp4", 1000⟩
    false (some 640) (some 480) 30 false ⟨240, "0:00:03"⟩ []
    (by decide) (by norm_num) (by decide)

/-- Counterexample to C7 as stated: the stream-level probe output
`"640\n480\n0.0"` parses its duration field successfully (to `0.0`), yet the
second, container-level probe is still issued, because the code tests Python
truthiness (`if not dur:`) rather than parse success. -/
theorem c7_zero_duration_cex :
    (parseStreamOutput "640\n480\n0.0").2.2 = some 0 ∧
    (run_ffprobe ⟨some "640\n480\n0.0", some "30"⟩).2 = true := by
  decide

/-- C7 (amended): when the first probe ran, the second probe is issued
exactly when the parsed stream-level duration is empty **or zero**; in that
case the returned duration is the parsed container-level value (empty when
that probe fails or its output does not parse), and a first probe that
parsed a nonzero duration triggers no second probe and its value is kept. -/
theorem c7_duration_fallback_amended :
    (∀ (env : ProbeEnv) (raw : String), env.first = some raw →
      pyFalsyQ (parseStreamOutput raw).2.2 = true →
      run_ffprobe env = (((parseStreamOutput raw).1, (parseStreamOutput raw).2.1,
        parseFormatOutput env.second), true)) ∧
    (∀ (env : ProbeEnv) (raw : String), env.first = some raw →
      pyFalsyQ (parseStreamOutput raw).2.2 = false →
      run_ffprobe env = (parseStreamOutput raw, false)) ∧
    (∀ (env : ProbeEnv) (raw : String), env.first = some raw →
      pyFalsyQ (parseStreamOutput raw).2.2 = true → env.second = none →
      (run_ffprobe env).1.2.2 = none) := by
  refine ⟨?_, ?_, ?_⟩
  · intro env raw h1 h2
    simp [run_ffprobe, h1, h2]
  · intro env raw h1 h2
    simp [run_ffprobe, h1, h2]
  · intro env raw h1 h2 h3
    simp [run_ffprobe, h1, h2, h3, parseFormatOutput]

/-- Witness for the amended C7: an empty first output triggers the fallback,
whose parsed value is returned. -/
theorem c7_fallback_witness :
    run_ffprobe ⟨some "", some "30"⟩ =
      (((parseStreamOutput "").1, (parseStreamOutput "").2.1,
        parseFormatOutput (some "30")), true) :=
  c7_duration_fallback_amended.1 ⟨some "", some "30"⟩ "" rfl (by decide)

/-- C8: when zero frames were extracted for a video, `create_thumbnail`
reports the per-video failure and writes no output file; the same holds when
the metadata probe yields no usable duration; and the batch loop processes
every remaining video regardless of such failures. -/
theorem c8_zero_frames (env : CTEnv) (t0 : Bool) (w h : Option ℤ) (d : ℚ) (b : Bool)
    (hp : run_ffprobe env.probe = ((w, h, some d), b)) (hd : ¬ d = 0)
    (hempty : extractImages env.slots d = []) :
    (create_thumbnail env t0).outcome = CTOutcome.noFrames ∧
    writesOutput (create_thumbnail env t0).outcome = false ∧
    (∀ (env2 : CTEnv) (t02 : Bool), pyFalsyQ (run_ffprobe env2.probe).1.2.2 = true →
      (create_thumbnail env2 t02).outcome = CTOutcome.unprocessable ∧
      writesOutput (create_thumbnail env2 t02).outcome = false) ∧
    (∀ (ow : ℤ) (ex : FPath → Bool) (fuel : ℕ) (j : VideoJob) (rest : List VideoJob),
      processBatch ow ex fuel (j :: rest) =
        processJob ow ex fuel j :: processBatch ow ex fuel rest) := by
  have hct : create_thumbnail env t0 = ⟨CTOutcome.noFrames, true⟩ := by
    simp [create_thumbnail, hp, pyFalsyQ, hd, hempty]
  refine ⟨by rw [hct], by rw [hct]; rfl, ?_, ?_⟩
  · intro env2 t02 hfalsy
    have : create_thumbnail env2 t02 = ⟨CTOutcome.unprocessable, t02⟩ := by
      simp [create_thumbnail, hfalsy]
    exact ⟨by rw [this], by rw [this]; rfl⟩
  · intro ow ex fuel j rest
    simp [processBatch]

/-- Witness for C8 at a video whose sixteen extractions all fail. -/
theorem c8_zero_frames_witness :
    (create_thumbnail ⟨⟨some "640\n480\n30", none⟩, (fun _ => none), "v.mp4", 1000⟩
        false).outcome = CTOutcome.noFrames ∧
    writesOutput (create_thumbnail ⟨⟨some "640\n480\n30", none⟩, (fun _ => none),
        "v.mp4", 1000⟩ false).outcome = false ∧
    (∀ (env2 : CTEnv) (t02 : Bool), pyFalsyQ (run_ffprobe env2.probe).1.2.2 = true →
      (create_thumbnail env2 t02).outcome = CTOutcome.unprocessable ∧
      writesOutput (create_thumbnail env2 t02).outcome = false) ∧
    (∀ (ow : ℤ) (ex : FPath → Bool) (fuel : ℕ) (j : VideoJob) (rest : List VideoJob),
      processBatch ow ex fuel (j :: rest) =
        processJob ow ex fuel j :: processBatch ow ex fuel rest) :=
  c8_zero_frames ⟨⟨some "640\n480\n30", none⟩, (fun _ => none), "v.mp4", 1000⟩ false
    (some 640) (some 480) 30 false (by decide) (by norm_num) (by decide)

/-- C10: when the probe yields a usable duration but no width or height, and
at least one frame was extracted, the sheet is still composed and saved, and
the header's resolution field renders the literal string `None` for each
missing dimension (`NonexNone`). -/
theorem c10_none_resolution (env : CTEnv) (t0 : Bool) (d : ℚ) (b : Bool)
    (img0 : Thumb) (rest : List Thumb)
    (hp : run_ffprobe env.probe = ((none, none, some d), b)) (hd : ¬ d = 0)
    (himg : extractImages env.slots d = img0 :: rest) :
    writesOutput (create_thumbnail env t0).outcome = true ∧
    outcomeHeader (create_thumbnail env t0).outcome =
      some (env.name ++ " | " ++ "None" ++ "x" ++ "None" ++ " | "
        ++ format_size env.fileSize ++ " | " ++ formatTimedelta (pyInt d)) := by
  rw [create_thumbnail_saved env t0 none none d b img0 rest hp hd himg]
  exact ⟨rfl, rfl⟩

/-- Witness for C10: an empty stream-level probe output with a container-level
duration of 30 seconds and one surviving frame; the header reads
`v.mp4 | NonexNone | 1000.0 B | 0:00:30`. -/
theorem c10_none_resolution_witness :
    writesOutput (create_thumbnail ⟨⟨some "", some "30"⟩,
        (fun i => if i == 0 then some ⟨640, 480⟩ else none), "v.mp4", 1000⟩
        false).outcome = true ∧
    outcomeHeader (create_thumbnail ⟨⟨some "", some "30"⟩,
        (fun i => if i == 0 then some ⟨640, 480⟩ else none), "v.mp4", 1000⟩
        false).outcome =
      some ("v.mp4" ++ " | " ++ "None" ++ "x" ++ "None" ++ " | "
        ++ format_size 1000 ++ " | " ++ formatTimedelta (pyInt 30)) :=
  c10_none_resolution
    ⟨⟨some "", some "30"⟩, (fun i => if i == 0 then some ⟨640, 480⟩ else none),
      "v.mp4", 1000⟩
    false 30 true ⟨240, "0:00:01"⟩ []
    (by decide) (by norm_num) (by decide)

end ScrLst
